import Mathlib

/-!
Verification of the pyNewportController communication and state-machine core.

Each Python function relevant to the specification claims is shallowly
embedded as an executable Lean definition; Python strings become Lean
strings (sequences of characters), fallible operations become Except or
Option values, and the traces of wire transactions issued by a routine are
made explicit as lists.
-/

/-- The controller state enumeration, from class ControllerState
(NewportSMC100.py lines 8-16). -/
inductive ControllerState
  | NotReferenced
  | Configuration
  | Homing
  | Moving
  | Ready
  | Disable
  | Jogging
  | Unknown
deriving DecidableEq, Inhabited

/-- The raw-code-to-state table of the ControllerState MultiValueEnum:
each raw 2-hex-digit status code paired with its semantic state, plus the
sentinel value string of the Unknown member itself. -/
def codeTable : List (String × ControllerState) :=
  [("0A", ControllerState.NotReferenced), ("0B", ControllerState.NotReferenced),
   ("0C", ControllerState.NotReferenced), ("0D", ControllerState.NotReferenced),
   ("0E", ControllerState.NotReferenced), ("0F", ControllerState.NotReferenced),
   ("10", ControllerState.NotReferenced), ("11", ControllerState.NotReferenced),
   ("14", ControllerState.Configuration),
   ("1E", ControllerState.Homing), ("1F", ControllerState.Homing),
   ("28", ControllerState.Moving),
   ("32", ControllerState.Ready), ("33", ControllerState.Ready),
   ("34", ControllerState.Ready), ("35", ControllerState.Ready),
   ("3C", ControllerState.Disable), ("3D", ControllerState.Disable),
   ("3E", ControllerState.Disable),
   ("46", ControllerState.Jogging), ("47", ControllerState.Jogging),
   ("Unknown", ControllerState.Unknown)]

/-- The ControllerState enum constructor applied to a raw code string:
some state when the code is in the table, none when the Python call
would raise ValueError. -/
def ofCode (c : String) : Option ControllerState :=
  Option.map Prod.snd (codeTable.find? (fun p => p.1 == c))

/-- Python slicing s[-2:]: the last two characters of a string (the whole
string when it is shorter than two characters). -/
def last2 (s : String) : String :=
  String.mk (s.data.drop (s.data.length - 2))

/-- Controller.GetState (lines 133-141): the query result of Query('TS')
is sliced to its last two characters and fed to the ControllerState
constructor; every exception (a failed transaction, or an unrecognized
code raising ValueError) is caught and turned into Unknown. -/
def getStateResult : Except Unit String → ControllerState
  | Except.error _ => ControllerState.Unknown
  | Except.ok r =>
    match ofCode (last2 r) with
    | none => ControllerState.Unknown
    | some st => st

/-- Controller.GetState together with the class-level __stateLock__
bookkeeping: the lock is acquired first inside the try block, and the
release statement sits between the decode and the return, so the except
path returns with the lock still held. The second component records
whether the lock is still held when the call returns. -/
def getStateWithLock (q : Except Unit String) : ControllerState × Bool :=
  match q with
  | Except.error _ => (ControllerState.Unknown, true)
  | Except.ok r =>
    match ofCode (last2 r) with
    | none => (ControllerState.Unknown, true)
    | some st => (st, false)

/-- One wire transaction observed at the Link: a state query (with the
state the mock device answered) or a command write. -/
inductive Tx
  | queryTS (answer : ControllerState)
  | write (cmd : String)
deriving DecidableEq

/-- The mock device of the claim scenario: it transitions to Ready when
the MM1 command is written and ignores other writes; state queries do
not change its state. -/
def mockWrite (d : ControllerState) (cmd : String) : ControllerState :=
  if cmd = "MM1" then ControllerState.Ready else d

/-- The loop `while self.State == ControllerState.Unknown` at the top of
Controller.__setState__ (line 143): each condition evaluation performs
one state query; against the mock device the state never changes, so a
non-Unknown state exits after exactly one query and an Unknown state
loops until the fuel runs out. -/
def waitWhileUnknown : Nat → ControllerState → Option (List Tx)
  | 0, _ => none
  | f + 1, d =>
    if d = ControllerState.Unknown then
      Option.map (fun tr => Tx.queryTS d :: tr) (waitWhileUnknown f d)
    else
      some [Tx.queryTS d]

/-- The loop `while self.State == ControllerState.Moving` of
Controller.GoHome (lines 96-98): one query per condition evaluation. -/
def pollNotMoving : Nat → ControllerState → Option (List Tx)
  | 0, _ => none
  | f + 1, d =>
    if d = ControllerState.Moving then
      Option.map (fun tr => Tx.queryTS d :: tr) (pollNotMoving f d)
    else
      some [Tx.queryTS d]

/-- Controller.GoHome (lines 94-98) against the mock device: write OR,
then poll the state until it is no longer Moving. -/
def goHomeRun (f : Nat) (d : ControllerState) :
    Option (ControllerState × List Tx) :=
  Option.map (fun tr => (mockWrite d ("OR"), Tx.write ("OR") :: tr))
    (pollNotMoving f (mockWrite d ("OR")))

/-- The short-circuiting condition
`(self.State == Jogging) or (self.State == Moving) or (self.State == Homing)`
on line 161: each operand evaluated performs one fresh state query, and a
true operand stops the evaluation. -/
def jogMovingHomingCheck (d : ControllerState) : List Tx :=
  if d = ControllerState.Jogging then [Tx.queryTS d]
  else if d = ControllerState.Moving then [Tx.queryTS d, Tx.queryTS d]
  else [Tx.queryTS d, Tx.queryTS d, Tx.queryTS d]

/-- Controller.__setState__ specialized to target Ready (lines 142-168)
run against the mock device, recording every wire transaction: the
Unknown wait loop, then the four if conditions of the Ready branch (each
performing its own state query), then the final
`if self.State != value: self.State = value` re-check which recurses
into __setState__ when the target is not yet reached. Returns the final
device state and the full transaction trace, or none when the fuel is
exhausted. -/
def setStateReady : Nat → ControllerState → Option (ControllerState × List Tx)
  | 0, _ => none
  | f + 1, d0 =>
    match waitWhileUnknown (f + 1) d0 with
    | none => none
    | some trW =>
      match
        (if d0 = ControllerState.Configuration then
          (mockWrite d0 ("PW0"), [Tx.queryTS d0, Tx.write ("PW0")])
        else (d0, [Tx.queryTS d0])) with
      | (d1, tr1) =>
        match
          (if d1 = ControllerState.NotReferenced then
            Option.map (fun p => (p.1, Tx.queryTS d1 :: p.2)) (goHomeRun f d1)
          else some (d1, [Tx.queryTS d1])) with
        | none => none
        | some (d2, tr2) =>
          match
            (if d2 = ControllerState.Disable then
              (mockWrite d2 ("MM1"), [Tx.queryTS d2, Tx.write ("MM1")])
            else (d2, [Tx.queryTS d2])) with
          | (d3, tr3) =>
            if d3 = ControllerState.Ready then
              some (d3, trW ++ tr1 ++ tr2 ++ tr3 ++
                jogMovingHomingCheck d3 ++ [Tx.queryTS d3])
            else
              match setStateReady f d3 with
              | none => none
              | some (dF, trR) =>
                some (dF, trW ++ tr1 ++ tr2 ++ tr3 ++
                  jogMovingHomingCheck d3 ++ [Tx.queryTS d3] ++ trR)

/-- MainController.SuperWrite (lines 241-246) run against a transport
that times out a given number of times before succeeding: returns the
number of write attempts performed, the list of backoff sleeps in
milliseconds (one sleep(0.2) after each timeout), and whether any error
was surfaced to the caller. -/
def superWrite : Nat → Nat × List Nat × Bool
  | 0 => (1, [], false)
  | n + 1 =>
    match superWrite n with
    | (a, bs, e) => (a + 1, 200 :: bs, e)

/-- An event in a two-transaction schedule over the Link: acquiring or
releasing a lock object (identified by a numeral), or the write/read
halves of a transaction, each tagged with the index of the SuperQuery
call performing it. -/
inductive LockEv
  | acq (call lockId : Nat)
  | wr (call : Nat)
  | rd (call : Nat)
  | rel (call lockId : Nat)
deriving DecidableEq

/-- Lock semantics: an acquire of an already-held lock object blocks (so
a schedule in which it proceeds is impossible); a release must match a
held (lock, call) pair; writes and reads do not touch the lock state.
The state is the list of (lockId, call) pairs currently held. -/
def lockStep (held : List (Nat × Nat)) : LockEv → Option (List (Nat × Nat))
  | LockEv.acq c l =>
    if held.any (fun p => p.1 == l) then none else some ((l, c) :: held)
  | LockEv.rel c l =>
    if (l, c) ∈ held then some (held.erase (l, c)) else none
  | LockEv.wr _ => some held
  | LockEv.rd _ => some held

/-- Runs a schedule of lock events from a held-lock state; some final
state exactly when every event can proceed. -/
def runSched : List (Nat × Nat) → List LockEv → Option (List (Nat × Nat))
  | held, [] => some held
  | held, e :: es =>
    match lockStep held e with
    | none => none
    | some h => runSched h es

/-- MainController.SuperQuery guards its body with `with Lock():`
(line 249), constructing a fresh threading.Lock object on every call;
the lock object used by call i is therefore distinct per call, modelled
by giving call i the lock identified by i. -/
def freshLockPerCall (call : Nat) : Nat := call

/-- A schedule of two concurrent SuperQuery transactions (calls 0 and 1)
in which call 1 performs its whole write/read exchange between the write
and the read of call 0 - exactly the interleaving the claim says the
shared lock forbids. Each call brackets its exchange with its own lock
per the lock-assignment function. -/
def overlappingSchedule (lockOf : Nat → Nat) : List LockEv :=
  [LockEv.acq 0 (lockOf 0), LockEv.wr 0,
   LockEv.acq 1 (lockOf 1), LockEv.wr 1, LockEv.rd 1, LockEv.rel 1 (lockOf 1),
   LockEv.rd 0, LockEv.rel 0 (lockOf 0)]

/-- One transport write issued by the Position setter: the SL or SR
limit query (each query performs a SuperWrite of the query string on the
wire) or the PA positioning command. -/
inductive PosTx
  | querySL
  | querySR
  | writePA (v : Rat)
deriving DecidableEq

/-- The Position setter (lines 114-119): the chained comparison
`self.MinPosition <= value <= self.MaxPosition` first queries SL; only
when that comparison holds does it query SR; an in-range value is
followed by the PA write, and an out-of-range value raises. Returns the
wire trace and whether the call raised. -/
def setPosition (minP maxP value : Rat) : List PosTx × Bool :=
  if minP ≤ value then
    if value ≤ maxP then
      ([PosTx.querySL, PosTx.querySR, PosTx.writePA value], false)
    else
      ([PosTx.querySL, PosTx.querySR], true)
  else
    ([PosTx.querySL], true)

/-- The address text prepended by Controller.Write and Controller.Query
(lines 60, 63): `str(self._address) if self._address is not None else ""`.
A numeric address renders as its decimal string; only a None address
yields the empty text. -/
def addrStr : Option Nat → String
  | none => ""
  | some a => toString a

/-- Controller.Write (lines 59-60): the command sent on the wire is the
address text followed by the command. -/
def deviceWrite (addr : Option Nat) (cmd : String) : String :=
  addrStr addr ++ cmd

/-- The query string sent by Controller.Query (lines 62-64): the address
text, the command, and a trailing question mark. -/
def deviceQuerySend (addr : Option Nat) (cmd : String) : String :=
  addrStr addr ++ cmd ++ "?"

/-- Python slicing s[n:]. -/
def pySliceFrom (s : String) (n : Nat) : String :=
  String.mk (s.data.drop n)

/-- The reply handling of Controller.Query (line 65): the value returned
to the caller is the reply with the first len(address text + command)
characters removed. -/
def deviceQueryParse (addr : Option Nat) (cmd reply : String) : String :=
  pySliceFrom reply (addrStr addr ++ cmd).length

/-- The error reply framing of the external interface: a TB reply is the
echoed (here unaddressed) TB mnemonic, the one-character error code, and
a description; code zero means no error. -/
def mkErrorReply (code : Char) (desc : String) : String :=
  "TB" ++ String.mk [code] ++ desc

/-- MainController.raise_error (lines 265-269): the reply returned by
read_error is not stripped of its echo, and the test is on its first
character, `err[0] != "0"`; an empty reply would raise IndexError, which
also counts as raising. Returns true when the call raises. -/
def raiseErrorRaises (reply : String) : Bool :=
  match reply.data with
  | [] => true
  | c :: _ => !(c == '0')

/-- A Python value that is either a string or an integer, with Python
equality semantics: values of different types compare unequal. -/
inductive PyVal
  | pstr (s : String)
  | pint (n : Int)
deriving DecidableEq

/-- Python equality on string/integer values: cross-type comparison is
always False. -/
def pyEq : PyVal → PyVal → Bool
  | PyVal.pstr a, PyVal.pstr b => a == b
  | PyVal.pint a, PyVal.pint b => a == b
  | _, _ => false

/-- The IsEnabled getter (lines 72-74): `self.Query('MM') == 1`, the
decoded string reply compared with the integer literal one. -/
def isEnabledGet (reply : String) : Bool :=
  pyEq (PyVal.pstr reply) (PyVal.pint 1)

/-- Controller.Connect (lines 46-54): IsConnected is set optimistically,
then the try block sets HomeIsHardwareDefined and requests the Ready
state; any exception from either step is caught, IsConnected is set back
to False, and the function falls through returning None instead of True.
Arguments say whether each step raises; the result is the final
IsConnected flag and the returned value (some true on success, none for
the implicit None of the failure path). -/
def connectRun (homeRaises setStateRaises : Bool) : Bool × Option Bool :=
  if homeRaises then (false, none)
  else if setStateRaises then (false, none)
  else (true, some true)

theorem last2_append (pre code : String) (h : code.data.length = 2) :
    last2 (pre ++ code) = code := by
  have hdata : (pre ++ code).data = pre.data ++ code.data := rfl
  have hlen : (pre.data ++ code.data).length - 2 = pre.data.length := by
    rw [List.length_append, h]
    omega
  cases code with
  | mk cd =>
    simp only [last2, hdata, hlen]
    rw [List.drop_left]

/-- C1: the state decode maps every documented raw status code to its
tabulated semantic state (codes 0A-11 to NotReferenced, 14 to
Configuration, 1E and 1F to Homing, 28 to Moving, 32-35 to Ready, 3C-3E
to Disable, 46 and 47 to Jogging); any 2-character code outside the
table, and any transaction failure while reading, makes GetState return
Unknown, and GetState is a total function (it never raises). -/
theorem c1_state_decode :
    (ofCode ("0A") = some ControllerState.NotReferenced ∧
     ofCode ("0B") = some ControllerState.NotReferenced ∧
     ofCode ("0C") = some ControllerState.NotReferenced ∧
     ofCode ("0D") = some ControllerState.NotReferenced ∧
     ofCode ("0E") = some ControllerState.NotReferenced ∧
     ofCode ("0F") = some ControllerState.NotReferenced ∧
     ofCode ("10") = some ControllerState.NotReferenced ∧
     ofCode ("11") = some ControllerState.NotReferenced ∧
     ofCode ("14") = some ControllerState.Configuration ∧
     ofCode ("1E") = some ControllerState.Homing ∧
     ofCode ("1F") = some ControllerState.Homing ∧
     ofCode ("28") = some ControllerState.Moving ∧
     ofCode ("32") = some ControllerState.Ready ∧
     ofCode ("33") = some ControllerState.Ready ∧
     ofCode ("34") = some ControllerState.Ready ∧
     ofCode ("35") = some ControllerState.Ready ∧
     ofCode ("3C") = some ControllerState.Disable ∧
     ofCode ("3D") = some ControllerState.Disable ∧
     ofCode ("3E") = some ControllerState.Disable ∧
     ofCode ("46") = some ControllerState.Jogging ∧
     ofCode ("47") = some ControllerState.Jogging) ∧
    (∀ (code : String) (st : ControllerState), ofCode code = some st →
      code.data.length = 2 → ∀ pre : String,
      getStateResult (Except.ok (pre ++ code)) = st) ∧
    (∀ code : String, code.data.length = 2 →
      code ∉ codeTable.map Prod.fst → ∀ pre : String,
      getStateResult (Except.ok (pre ++ code)) = ControllerState.Unknown) ∧
    (∀ e : Unit, getStateResult (Except.error e) = ControllerState.Unknown) := by
  refine ⟨by decide, ?_, ?_, fun e => rfl⟩
  · intro code st hof hlen pre
    simp only [getStateResult, last2_append pre code hlen, hof]
  · intro code hlen hnot pre
    have hnone : codeTable.find? (fun p => p.1 == code) = none := by
      rw [List.find?_eq_none]
      intro p hp hbeq
      exact hnot (List.mem_map.mpr ⟨p, hp, by simpa using hbeq⟩)
    simp only [getStateResult, last2_append pre code hlen, ofCode, hnone,
      Option.map_none']

theorem c1_state_decode_witness :
    getStateResult (Except.ok ("1TS28")) = ControllerState.Moving ∧
    getStateResult (Except.ok ("1TS99")) = ControllerState.Unknown ∧
    getStateResult (Except.error ()) = ControllerState.Unknown := by
  have e1 : ("1TS" : String) ++ "28" = "1TS28" := rfl
  have e2 : ("1TS" : String) ++ "99" = "1TS99" := rfl
  refine ⟨?_, ?_, c1_state_decode.2.2.2 ()⟩
  · rw [← e1]
    exact c1_state_decode.2.1 ("28") ControllerState.Moving (by decide)
      (by decide) ("1TS")
  · rw [← e2]
    exact c1_state_decode.2.2.1 ("99") (by decide) (by decide) ("1TS")

/-- C10: GetState does not release the class-level state lock on every
path: on a failed transaction, and on a reply whose code is outside the
table (where the ControllerState constructor raises before the release
statement), the call returns Unknown while still holding __stateLock__;
the lock is only released on the success path. -/
theorem c10_getstate_lock_leak :
    getStateWithLock (Except.error ()) = (ControllerState.Unknown, true) ∧
    getStateWithLock (Except.ok ("1TS99")) = (ControllerState.Unknown, true) ∧
    getStateWithLock (Except.ok ("1TS33")) = (ControllerState.Ready, false) := by
  decide

theorem c5_counterexample :
    Option.map Prod.snd (setStateReady 5 ControllerState.Disable) ≠
      some [Tx.queryTS ControllerState.Disable, Tx.write ("MM1"),
        Tx.queryTS ControllerState.Ready] := by
  decide

/-- C5 (amended): RequestState(Ready) starting from Disable, against the
mock device that transitions to Ready after MM1, issues exactly the
sequence [four state queries answered Disable (the Unknown-wait check
and the Configuration, NotReferenced and Disable condition queries),
write MM1, four state queries answered Ready (the three operands of the
Jogging/Moving/Homing disjunction and the final target re-check)] before
reporting success. -/
theorem c5_amended :
    setStateReady 5 ControllerState.Disable =
      some (ControllerState.Ready,
        [Tx.queryTS ControllerState.Disable, Tx.queryTS ControllerState.Disable,
         Tx.queryTS ControllerState.Disable, Tx.queryTS ControllerState.Disable,
         Tx.write ("MM1"),
         Tx.queryTS ControllerState.Ready, Tx.queryTS ControllerState.Ready,
         Tx.queryTS ControllerState.Ready, Tx.queryTS ControllerState.Ready]) := by
  decide

/-- C4: against a transport that write-times-out n times and then
succeeds, SuperWrite performs exactly n + 1 write attempts, sleeps a
fixed 200 ms backoff after each timeout, and surfaces no error to the
caller; the recursion carries no retry counter, so this holds for
every n. -/
theorem c4_superwrite_retries :
    ∀ n : Nat, superWrite n = (n + 1, List.replicate n 200, false) := by
  intro n
  induction n with
  | zero => rfl
  | succ k ih => simp [superWrite, ih, List.replicate_succ]

/-- C2: the lock guarding a SuperQuery transaction is a freshly
constructed object per call, not one single shared lock: two concurrent
calls hold distinct locks, and the schedule in which the write and read
of call 1 interleave between the write and the read of call 0 is
possible under the per-call locks, while it would be impossible had both
calls shared one lock. -/
theorem c2_lock_not_shared :
    freshLockPerCall 0 ≠ freshLockPerCall 1 ∧
    (runSched [] (overlappingSchedule freshLockPerCall)).isSome = true ∧
    (runSched [] (overlappingSchedule (fun _ => 0))).isSome = false := by
  decide

theorem c3_counterexample :
    setPosition 0 10 (-5) = ([PosTx.querySL], true) ∧
    ([PosTx.querySL] : List PosTx) ≠ [] := by
  have h : ¬((0 : Rat) ≤ -5) := by norm_num
  refine ⟨?_, by simp⟩
  simp [setPosition, h]

/-- C3 (amended): for every value outside [MinPosition, MaxPosition],
setting Position raises and writes no PA positioning command, but the
validation itself performs wire traffic: the SL limit query (and the SR
limit query when the lower bound holds) is written to the transport
before the failure is raised, so the trace is not empty. -/
theorem c3_amended (minP maxP value : Rat)
    (h : ¬(minP ≤ value ∧ value ≤ maxP)) :
    (setPosition minP maxP value).2 = true ∧
    (setPosition minP maxP value).1 ≠ [] ∧
    ∀ w, PosTx.writePA w ∉ (setPosition minP maxP value).1 := by
  by_cases h1 : minP ≤ value
  · by_cases h2 : value ≤ maxP
    · exact absurd ⟨h1, h2⟩ h
    · simp [setPosition, h1, h2]
  · simp [setPosition, h1]

theorem c3_amended_witness :
    (setPosition 0 10 (-5)).2 = true ∧
    (setPosition 0 10 (-5)).1 ≠ [] ∧
    ∀ w, PosTx.writePA w ∉ (setPosition 0 10 (-5)).1 :=
  c3_amended 0 10 (-5) (by norm_num)

theorem c6_counterexample :
    deviceWrite (some 0) ("TS") = "0TS" ∧
    deviceWrite (some 0) ("TS") ≠ ("TS") ∧
    addrStr (some 0) ≠ "" := by
  refine ⟨rfl, by decide, by decide⟩

/-- C6 (amended): Write sends the command prefixed with the address
rendered as a decimal string and Query sends the prefixed command plus a
question mark, stripping the leading address-plus-command echo from the
reply; only a Device whose stored address is None produces an empty
prefix, while address 0 produces the prefix "0" (it does not address the
Link owner with an empty prefix). -/
theorem c6_amended :
    (∀ cmd : String, deviceWrite none cmd = cmd) ∧
    (∀ (a : Nat) (cmd : String),
      deviceWrite (some a) cmd = toString a ++ cmd) ∧
    deviceWrite (some 0) ("TS") = "0TS" ∧
    (∀ (addr : Option Nat) (cmd : String),
      deviceQuerySend addr cmd = addrStr addr ++ cmd ++ "?") ∧
    (∀ (addr : Option Nat) (cmd val : String),
      deviceQueryParse addr cmd (addrStr addr ++ cmd ++ val) = val) := by
  refine ⟨?_, fun a cmd => rfl, rfl, fun addr cmd => rfl, ?_⟩
  · intro cmd
    cases cmd with
    | mk d => rfl
  · intro addr cmd val
    have hdata :
        (addrStr addr ++ cmd ++ val).data =
          (addrStr addr ++ cmd).data ++ val.data := rfl
    have hlen :
        (addrStr addr ++ cmd).length = (addrStr addr ++ cmd).data.length := rfl
    cases val with
    | mk d =>
      simp only [deviceQueryParse, pySliceFrom, hdata, hlen]
      rw [List.drop_left]

/-- C7: raise_error tests the first character of the unstripped error
reply; under the documented reply framing (the echoed TB mnemonic, then
the code character, then the description) that first character is the T
of the echo, never the code, so raise_error raises for every reply -
including a reply whose code character is the zero meaning no error -
and the claimed equivalence with a non-zero code fails. -/
theorem c7_raise_error_always_raises :
    (∀ (code : Char) (desc : String),
      raiseErrorRaises (mkErrorReply code desc) = true) ∧
    raiseErrorRaises (mkErrorReply '0' (" No error")) = true ∧
    (mkErrorReply '0' (" No error")).data.head? = some 'T' := by
  refine ⟨?_, by decide, by decide⟩
  intro code desc
  rfl

/-- C8: the IsEnabled getter compares the decoded string reply with the
integer literal one, a cross-type comparison that is False for every
reply string; in particular no reply makes the getter return true, so
the claimed comparison against a stringified boolean is absent from the
code. -/
theorem c8_isenabled_always_false :
    ∀ reply : String, isEnabledGet reply = false :=
  fun _ => rfl

/-- C9: Connect marks the Device connected, then runs the home-flag
assignment and the Ready-state request inside a try block; when either
step raises, the handler marks the Device disconnected and the call
returns None rather than True, and when no step raises the Device stays
connected and the call returns True - so after every Connect the Device
is either fully connected or disconnected. -/
theorem c9_connect_all_or_nothing :
    ∀ h s : Bool,
      connectRun h s =
        (if h || s then ((false : Bool), (none : Option Bool))
         else (true, some true)) ∧
      ((connectRun h s).1 = true ↔ h = false ∧ s = false) := by
  decide
